import Mathlib

/-!
Shallow embedding of src/app.py (NextChapter): the response-extraction and
graph-construction pipeline. Python values are modelled by the Json type
(Python None is Json.null, since json.loads maps a JSON null to None),
Python exceptions by the PyErr type, and each Python function of the source
is translated into a Lean function of the same name.
-/

namespace NextChapter

/-- JSON values, doubling as the Python values flowing through the pipeline.
Python None is Json.null. Numbers are modelled as integers; no input in this
development contains floating-point literals. -/
inductive Json where
  | null : Json
  | bool : Bool → Json
  | num : Int → Json
  | str : String → Json
  | arr : List Json → Json
  | obj : List (String × Json) → Json

/-- Python truthiness, bool(v), for the modelled values. -/
def truthy : Json → Bool
  | .null => false
  | .bool b => b
  | .num n => n != 0
  | .str s => !s.isEmpty
  | .arr xs => !xs.isEmpty
  | .obj kvs => !kvs.isEmpty

/-- Python `x or y`: the left operand when truthy, otherwise the right. -/
def pyOr (a b : Json) : Json := if truthy a then a else b

/-- Assoc-list lookup modelling dict access. The object parser and dict
assignment keep keys unique, so the first match is the binding. -/
def objGet : List (String × Json) → String → Option Json
  | [], _ => none
  | (k, v) :: rest, key => if k = key then some v else objGet rest key

/-- Python dict assignment d[key] = v: overwrite in place when the key
exists, else append (insertion order preserved, as in CPython). -/
def objInsert : List (String × Json) → String → Json → List (String × Json)
  | [], key, v => [(key, v)]
  | (k, w) :: rest, key, v =>
    if k = key then (k, v) :: rest else (k, w) :: objInsert rest key v

/-- Python exceptions the modelled code can raise. -/
inductive PyErr where
  | jsonDecodeError : String → PyErr
  | attributeError : String → PyErr
  | assertionError : String → PyErr
  | typeError : String → PyErr
  | keyError : String → PyErr
  | indexError : String → PyErr
  | httpError : Nat → PyErr
  | requestError : String → PyErr

/-- Whitespace characters the json module skips between tokens. -/
def isJsonWs (c : Char) : Bool := c = ' ' || c = '\t' || c = '\n' || c = '\r'

/-- Drop leading JSON whitespace. -/
def skipWs : List Char → List Char
  | [] => []
  | c :: cs => if isJsonWs c then skipWs cs else c :: cs

/-- Value of a hexadecimal digit. -/
def hexVal (c : Char) : Option Nat :=
  if '0' ≤ c ∧ c ≤ '9' then some (c.toNat - '0'.toNat)
  else if 'a' ≤ c ∧ c ≤ 'f' then some (c.toNat - 'a'.toNat + 10)
  else if 'A' ≤ c ∧ c ≤ 'F' then some (c.toNat - 'A'.toNat + 10)
  else none

/-- String-body scanner of the json module, after the opening quote:
accumulates characters (in reverse) until the closing quote, handling the
JSON escapes and rejecting unescaped control characters. -/
def pStrAux : List Char → List Char → Except String (String × List Char)
  | _, [] => .error "Unterminated string"
  | acc, '\"' :: rest => .ok (String.mk acc.reverse, rest)
  | acc, '\\' :: 'u' :: h1 :: h2 :: h3 :: h4 :: rest =>
    (match hexVal h1, hexVal h2, hexVal h3, hexVal h4 with
     | some a, some b, some c, some d =>
       pStrAux (Char.ofNat (((a * 16 + b) * 16 + c) * 16 + d) :: acc) rest
     | _, _, _, _ => .error "Invalid hex escape")
  | acc, '\\' :: e :: rest =>
    (match (if e = '\"' then some '\"' else if e = '\\' then some '\\'
            else if e = '/' then some '/' else if e = 'n' then some '\n'
            else if e = 't' then some '\t' else if e = 'r' then some '\r'
            else if e = 'b' then some (Char.ofNat 8)
            else if e = 'f' then some (Char.ofNat 12) else none) with
     | some c => pStrAux (c :: acc) rest
     | none => .error "Invalid escape")
  | _, ['\\'] => .error "Unterminated string"
  | acc, c :: rest =>
    if c.toNat < 32 then .error "Invalid control character"
    else pStrAux (c :: acc) rest

/-- Numeric value of a digit list. -/
def digitsToNat (ds : List Char) : Nat :=
  ds.foldl (fun n c => n * 10 + (c.toNat - '0'.toNat)) 0

/-- Integer scanner following the json module number grammar: optional
minus, then either 0 or a nonzero digit followed by digits. Fraction and
exponent forms lie outside the modelled fragment and are rejected; no input
in this development contains them. -/
def pNum (cs : List Char) : Except String (Json × List Char) :=
  let (neg, cs1) : Bool × List Char :=
    match cs with
    | '-' :: rest => (true, rest)
    | _ => (false, cs)
  match cs1 with
  | [] => .error "Expecting value"
  | c :: rest =>
    if c = '0' then
      match rest with
      | d :: _ =>
        if d = '.' || d = 'e' || d = 'E' then
          .error "Float literal outside modelled fragment"
        else .ok (Json.num 0, rest)
      | [] => .ok (Json.num 0, [])
    else if c.isDigit then
      let ds := (c :: rest).takeWhile Char.isDigit
      let rest2 := (c :: rest).dropWhile Char.isDigit
      match rest2 with
      | d :: _ =>
        if d = '.' || d = 'e' || d = 'E' then
          .error "Float literal outside modelled fragment"
        else .ok (Json.num (if neg then -(digitsToNat ds : Int) else (digitsToNat ds : Int)), rest2)
      | [] => .ok (Json.num (if neg then -(digitsToNat ds : Int) else (digitsToNat ds : Int)), [])
    else .error "Expecting value"

/-- Array-element loop of the json parser: the element grammar is supplied
as a function, the first argument bounds the number of iterations (each
iteration consumes at least one character, so the budget chosen by the
caller is never exhausted on real input). -/
def pArrE (pv : List Char → Except String (Json × List Char)) :
    Nat → List Json → List Char → Except String (Json × List Char)
  | 0, _, _ => .error "Exceeded iteration budget"
  | n + 1, acc, cs => do
    let (v, rest) ← pv (skipWs cs)
    match skipWs rest with
    | ',' :: rest2 => pArrE pv n (acc ++ [v]) rest2
    | ']' :: rest2 => .ok (Json.arr (acc ++ [v]), rest2)
    | _ => .error "Expecting comma delimiter"

/-- Object-member loop of the json parser, mirroring dict construction:
a later binding for a key overwrites the earlier one. -/
def pObjE (pv : List Char → Except String (Json × List Char)) :
    Nat → List (String × Json) → List Char → Except String (Json × List Char)
  | 0, _, _ => .error "Exceeded iteration budget"
  | n + 1, acc, cs =>
    match skipWs cs with
    | '\"' :: rest => do
      let (k, rest1) ← pStrAux [] rest
      match skipWs rest1 with
      | ':' :: rest2 => do
        let (v, rest3) ← pv (skipWs rest2)
        let acc2 := objInsert acc k v
        match skipWs rest3 with
        | ',' :: rest4 => pObjE pv n acc2 rest4
        | '\x7d' :: rest4 => .ok (Json.obj acc2, rest4)
        | _ => .error "Expecting comma delimiter"
      | _ => .error "Expecting colon delimiter"
    | _ => .error "Expecting property name enclosed in double quotes"

/-- Value scanner of the json module on the modelled fragment. The first
argument bounds nesting depth; the entry point supplies one more than the
input length, which no input can exhaust. Expects its input to start at a
non-whitespace character. -/
def pVal : Nat → List Char → Except String (Json × List Char)
  | 0, _ => .error "Exceeded nesting budget"
  | fuel + 1, cs =>
    match cs with
    | 'n' :: 'u' :: 'l' :: 'l' :: rest => .ok (Json.null, rest)
    | 't' :: 'r' :: 'u' :: 'e' :: rest => .ok (Json.bool true, rest)
    | 'f' :: 'a' :: 'l' :: 's' :: 'e' :: rest => .ok (Json.bool false, rest)
    | '\"' :: rest => do
      let (s, rest1) ← pStrAux [] rest
      .ok (Json.str s, rest1)
    | '\x7b' :: rest =>
      (match skipWs rest with
       | '\x7d' :: rest1 => .ok (Json.obj [], rest1)
       | _ => pObjE (fun cs2 => pVal fuel cs2) (rest.length + 1) [] rest)
    | '[' :: rest =>
      (match skipWs rest with
       | ']' :: rest1 => .ok (Json.arr [], rest1)
       | _ => pArrE (fun cs2 => pVal fuel cs2) (rest.length + 1) [] rest)
    | _ => pNum cs

/-- Models json.loads on str input over the modelled JSON fragment: skip
surrounding whitespace, scan one value, reject trailing data. -/
def parseJson (s : String) : Except String Json :=
  let cs := skipWs s.data
  match pVal (cs.length + 1) cs with
  | .ok (v, rest) => if (skipWs rest).isEmpty then .ok v else .error "Extra data"
  | .error e => .error e

/-- Wrapper typing the parse failure as the json.JSONDecodeError exception,
the only exception json.loads raises on str input in the modelled fragment. -/
def json_loads (s : String) : Except PyErr Json :=
  match parseJson s with
  | .ok v => .ok v
  | .error m => .error (.jsonDecodeError m)

mutual
/-- Python repr of a modelled value, as used inside container renderings. -/
def pyRepr : Json → String
  | .null => "None"
  | .bool b => if b then "True" else "False"
  | .num n => toString n
  | .str s => String.singleton '\'' ++ s ++ String.singleton '\''
  | .arr xs => "[" ++ pyReprL xs ++ "]"
  | .obj kvs => "\x7b" ++ pyReprKV kvs ++ "\x7d"

/-- Comma-joined repr of list elements. -/
def pyReprL : List Json → String
  | [] => ""
  | [x] => pyRepr x
  | x :: y :: rest => pyRepr x ++ ", " ++ pyReprL (y :: rest)

/-- Comma-joined repr of dict items. -/
def pyReprKV : List (String × Json) → String
  | [] => ""
  | [(k, v)] => String.singleton '\'' ++ k ++ String.singleton '\'' ++ ": " ++ pyRepr v
  | (k, v) :: p :: rest =>
    String.singleton '\'' ++ k ++ String.singleton '\'' ++ ": " ++ pyRepr v ++ ", " ++
      pyReprKV (p :: rest)
end

/-- Python str() of a modelled value: strings render bare, None, booleans
and integers by their Python forms, containers by their repr. -/
def pyStr : Json → String
  | .str s => s
  | v => pyRepr v

/-- Python equality restricted to the values it is applied to in the
source: node identifiers (asserted by the renderer to be str or int) and
the group tag compared against string literals. Python treats booleans as
the integers 0 and 1. A container operand never compares equal to a scalar
in Python, and deep container equality is unreachable at every use site,
so containers are modelled as comparing false. -/
def pyEq : Json → Json → Bool
  | .null, .null => true
  | .str a, .str b => a == b
  | .num a, .num b => a == b
  | .bool a, .bool b => a == b
  | .bool a, .num b => (if a then (1 : Int) else 0) == b
  | .num a, .bool b => a == (if b then (1 : Int) else 0)
  | _, _ => false

/-- Check that the second list starts with the first. -/
def startsWithChars : List Char → List Char → Bool
  | [], _ => true
  | _ :: _, [] => false
  | p :: ps, c :: cs => p == c && startsWithChars ps cs

/-- Scanner for str.replace: replace each non-overlapping occurrence, left
to right. The numeric argument is a scan budget; the entry point supplies
the input length, which suffices since every step consumes a character. -/
def replaceAllF (pat repl : List Char) : Nat → List Char → List Char
  | _, [] => []
  | 0, l => l
  | n + 1, c :: rest =>
    if !pat.isEmpty && startsWithChars pat (c :: rest) then
      repl ++ replaceAllF pat repl n (List.drop (pat.length - 1) rest)
    else c :: replaceAllF pat repl n rest

/-- Models Python str.replace(pat, repl). -/
def replaceAll (s pat repl : String) : String :=
  String.mk (replaceAllF pat.data repl.data s.data.length s.data)

/-- Whitespace stripped by str.strip (the ASCII subset, which covers every
input in this development). -/
def isPyWs (c : Char) : Bool :=
  c = ' ' || c = '\t' || c = '\n' || c = '\r' || c = '\x0b' || c = '\x0c'

/-- Models str.strip(): drop leading and trailing whitespace. -/
def pyStrip (s : String) : String :=
  String.mk ((s.data.dropWhile isPyWs).reverse.dropWhile isPyWs).reverse

/-- Code-fence stripping applied to the raw model response at line 177 of
src/app.py: str.replace of the json fence marker, then of the bare fence
marker, then str.strip. -/
def cleanedOf (raw : String) : String :=
  pyStrip (replaceAll (replaceAll raw "```json" "") "```" "")

/-- Index of the last occurrence of a character. -/
def lastIdx (c : Char) : List Char → Option Nat
  | [] => none
  | x :: xs =>
    match lastIdx c xs with
    | some i => some (i + 1)
    | none => if x == c then some 0 else none

/-- Models re.search of the raw pattern at line 95 of src/app.py, an
alternation of a greedy brace group and a greedy bracket group over
arbitrary characters: scanning positions left to right, the first position
holding an opening brace with a closing brace somewhere after it matches up
to the last such closing brace; when that alternative fails at the
position, an opening bracket with a later closing bracket matches up to the
last closing bracket. Returns the matched substring. -/
def findJsonMatch : List Char → Option (List Char)
  | [] => none
  | c :: rest =>
    if c = '\x7b' then
      match lastIdx '\x7d' rest with
      | some i => some (c :: rest.take (i + 1))
      | none => findJsonMatch rest
    else if c = '[' then
      match lastIdx ']' rest with
      | some i => some (c :: rest.take (i + 1))
      | none => findJsonMatch rest
    else findJsonMatch rest

/-- Translation of extract_json (src/app.py lines 89 to 100). The first
try catches only json.JSONDecodeError, so any other exception from the
direct parse would propagate; the fallback try catches every exception and
falls through to return None (Json.null). -/
def extract_json (text : String) : Except PyErr Json :=
  match json_loads text with
  | .ok v => .ok v
  | .error (.jsonDecodeError _) =>
    (match findJsonMatch text.data with
     | some sub =>
       (match json_loads (String.mk sub) with
        | .ok v => .ok v
        | .error _ => .ok Json.null)
     | none => .ok Json.null)
  | .error e => .error e

/-- Translation of create_tooltip_text (src/app.py lines 68 to 86), taking
the binding list of the node dict. -/
def create_tooltip_text (node : List (String × Json)) : String :=
  let book_title := pyOr ((objGet node "title").getD Json.null)
      (pyOr ((objGet node "id").getD Json.null) (Json.str "Untitled"))
  let author := (objGet node "author").getD (Json.str "Unknown Author")
  let reason := (objGet node "reason").getD (Json.str "No recommendation reason provided.")
  let summary := (objGet node "summary").getD (Json.str "No summary available.")
  let group := (objGet node "group").getD (Json.str "Recommended")
  let badge :=
    if pyEq group (Json.str "Seed") then "🔴 Your Input Book"
    else if pyEq group (Json.str "Level2") then "🟡 Deep Recommendation"
    else "🔵 Recommended Book"
  badge ++ "\n\n📚 " ++ pyStr book_title ++ "\n✍️ " ++ pyStr author ++
    "\n\n💡 Why this book:\n" ++ pyStr reason ++ "\n\n📖 Summary:\n" ++ pyStr summary

/-- Python subscript v[key], for the envelope access in get_recommendations:
dict lookup raising KeyError when the key is absent or not a string (the
modelled dicts have only string keys), sequence indexing with negative
offsets and IndexError, TypeError otherwise. A boolean index acts as its
integer value, as in Python. -/
def pySub : Json → Json → Except PyErr Json
  | .obj kvs, .str k =>
    (match objGet kvs k with
     | some v => .ok v
     | none => .error (.keyError k))
  | .obj _, k => .error (.keyError (pyStr k))
  | .arr xs, .num i =>
    let j : Int := if i < 0 then i + xs.length else i
    if h : 0 ≤ j ∧ j.toNat < xs.length then .ok (xs.get ⟨j.toNat, h.2⟩)
    else .error (.indexError "list index out of range")
  | .arr xs, .bool b =>
    let i : Int := if b then 1 else 0
    if h : i.toNat < xs.length then .ok (xs.get ⟨i.toNat, h⟩)
    else .error (.indexError "list index out of range")
  | .str s, .num i =>
    let j : Int := if i < 0 then i + s.length else i
    if 0 ≤ j ∧ j.toNat < s.length then .ok (.str (String.singleton (s.data.getD j.toNat ' ')))
    else .error (.indexError "string index out of range")
  | _, _ => .error (.typeError "object is not subscriptable")

/-- Substring test used by Python membership on strings. -/
def containsSub (pat : List Char) : List Char → Bool
  | [] => pat.isEmpty
  | c :: rest => startsWithChars pat (c :: rest) || containsSub pat rest

/-- Python membership test (k in v) for the candidates check: key presence
for dicts, element equality for lists, substring for strings, TypeError
otherwise. -/
def pyContains (v : Json) (k : String) : Except PyErr Bool :=
  match v with
  | .obj kvs => .ok (objGet kvs k).isSome
  | .arr xs => .ok (xs.any (fun x => pyEq x (.str k)))
  | .str s => .ok (containsSub k.data s.data)
  | _ => .error (.typeError "argument is not iterable")

/-- Python iteration (for x in v): lists yield their elements, strings
yield single-character strings, dicts yield their keys, scalars raise
TypeError. -/
def pyIter : Json → Except PyErr (List Json)
  | .arr xs => .ok xs
  | .str s => .ok (s.data.map (fun c => Json.str (String.singleton c)))
  | .obj kvs => .ok (kvs.map (fun kv => Json.str kv.1))
  | _ => .error (.typeError "object is not iterable")

/-- A node as registered with the pyvis Network: identifier, display
label, tooltip and the visual attributes chosen by visualize_network. -/
structure VisNode where
  id : Json
  label : Json
  tooltip : String
  color : String
  size : Nat

/-- An edge as stored by the pyvis Network. -/
structure VisEdge where
  source : Json
  target : Json
  label : Json
  title : Json

/-- Contents of the pyvis Network object built by visualize_network. -/
structure NetState where
  nodes : List VisNode
  edges : List VisEdge

/-- Field computation of the node loop of visualize_network (src/app.py
lines 269 to 289): identifier from the id field with fallback to the
label, display label from the title field with fallback to str of the
identifier, writeback of a fallback identifier into the dict, group
classification into color and size with Recommended as the default tier,
and the tooltip over the (possibly updated) dict. -/
def mkVisNode (kvs : List (String × Json)) : VisNode :=
  let node_id0 := (objGet kvs "id").getD Json.null
  let node_label := pyOr ((objGet kvs "title").getD Json.null) (Json.str (pyStr node_id0))
  let node_id := if truthy node_id0 then node_id0 else node_label
  let kvs1 := if truthy node_id0 then kvs else objInsert kvs "id" node_id
  let group := (objGet kvs1 "group").getD (Json.str "Recommended")
  let cs : String × Nat :=
    if pyEq group (Json.str "Seed") then ("#FF6B6B", 50)
    else if pyEq group (Json.str "Level2") then ("#FFD93D", 25)
    else ("#4ECDC4", 35)
  { id := node_id, label := node_label, tooltip := create_tooltip_text kvs1,
    color := cs.1, size := cs.2 }

/-- Python isinstance check for str or int, as asserted by the pyvis
add_node method; a Python bool is an int subclass. -/
def isStrOrInt : Json → Bool
  | .str _ => true
  | .num _ => true
  | .bool _ => true
  | _ => false

/-- Models the add_node method of pyvis.Network (third-party pyvis
library, network.py): asserts the identifier is a str or int, then
registers the node unless an equal identifier is already present; a falsy
label argument falls back to the identifier. -/
def addNodePyvis (st : NetState) (n : VisNode) : Except PyErr NetState :=
  if isStrOrInt n.id then
    if st.nodes.any (fun m => pyEq m.id n.id) then .ok st
    else .ok { st with nodes :=
      st.nodes ++ [{ n with label := if truthy n.label then n.label else n.id }] }
  else .error (.assertionError "node id must be str or int")

/-- Node-loop body of visualize_network (src/app.py lines 269 to 297) for
one raw entry: attribute access on a non-dict entry raises AttributeError;
a dict entry is normalized by mkVisNode and registered with the network. -/
def addNode (st : NetState) (nodeJ : Json) : Except PyErr NetState :=
  match nodeJ with
  | .obj kvs => addNodePyvis st (mkVisNode kvs)
  | _ => .error (.attributeError "object has no attribute get")

/-- Edge-loop body of visualize_network (src/app.py lines 300 to 306) for
one raw entry, including the behavior of the add_edge method of
pyvis.Network (third-party pyvis library, network.py): add_edge asserts
that each endpoint equals a registered node identifier (failure message:
non existent node), skips an edge whose endpoint pair already occurs in
either orientation, and otherwise appends the edge with the given label as
both label and title. Entries whose source or target is missing or falsy
are dropped by the guard before pyvis is consulted; a missing label
defaults to Related. -/
def addEdgeStep (st : NetState) (edgeJ : Json) : Except PyErr NetState :=
  match edgeJ with
  | .obj kvs =>
    let source := (objGet kvs "source").getD Json.null
    let target := (objGet kvs "target").getD Json.null
    let label := (objGet kvs "label").getD (Json.str "Related")
    if truthy source && truthy target then
      if st.nodes.any (fun m => pyEq m.id source) then
        if st.nodes.any (fun m => pyEq m.id target) then
          if st.edges.any (fun e => (pyEq source e.target && pyEq target e.source) ||
              (pyEq source e.source && pyEq target e.target)) then
            .ok st
          else .ok { st with edges := st.edges ++ [⟨source, target, label, label⟩] }
        else .error (.assertionError
          ("non existent node " ++ String.singleton '\'' ++ pyStr target ++ String.singleton '\''))
      else .error (.assertionError
        ("non existent node " ++ String.singleton '\'' ++ pyStr source ++ String.singleton '\''))
    else .ok st
  | _ => .error (.attributeError "object has no attribute get")

/-- Translation of visualize_network (src/app.py lines 194 to 348): a bare
list is wrapped as the nodes collection with empty edges; a value that is
not a dict containing a nodes key yields None; otherwise the node loop and
the edge loop populate the network. Exceptions from the loops propagate,
since the loops precede the try block at line 309. The HTML round-trip of
lines 309 to 344 performs only file writing, reading and a style
injection; it is modelled as succeeding, with the populated network
standing for the returned artifact. -/
def visualize_network (data0 : Json) : Except PyErr (Option NetState) :=
  let data := match data0 with
    | .arr xs => Json.obj [("nodes", Json.arr xs), ("edges", Json.arr [])]
    | v => v
  match data with
  | .obj kvs =>
    if (objGet kvs "nodes").isSome then do
      let nodeEntries ← pyIter ((objGet kvs "nodes").getD (Json.arr []))
      let st1 ← nodeEntries.foldlM addNode ⟨[], []⟩
      let edgeEntries ← pyIter ((objGet kvs "edges").getD (Json.arr []))
      let st2 ← edgeEntries.foldlM addEdgeStep st1
      .ok (some st2)
    else .ok none
  | _ => .ok none

/-- Outcome of one requests.post call: an HTTP response with status code
and body text, or an exception raised by the transport. -/
inductive HttpOutcome where
  | resp : Nat → String → HttpOutcome
  | raised : String → HttpOutcome

/-- User-facing failure banners shown via st.error inside
get_recommendations. -/
inductive UserMsg where
  | rateLimit : UserMsg
  | commError : String → UserMsg

/-- Observable result of one get_recommendations invocation: the returned
value (None is Json.null), the number of request attempts performed, the
backoff sleeps executed between attempts, and the banners shown. -/
structure ClientResult where
  retval : Json
  attempts : Nat
  sleeps : List Nat
  msgs : List UserMsg

/-- Retry schedule of src/app.py line 157. -/
def retry_delays : List Nat := [2, 5, 10]

/-- Attempt budget of src/app.py line 156. -/
def max_retries : Nat := 3

/-- String form of an exception, as interpolated into the
communication-error banner; for an HTTPError from raise_for_status the
requests library renders the status code with its class. -/
def pyErrText : PyErr → String
  | .httpError s => toString s ++ (if 500 ≤ s then " Server Error" else " Client Error")
  | .jsonDecodeError m => m
  | .attributeError m => m
  | .assertionError m => m
  | .typeError m => m
  | .keyError m => m
  | .indexError m => m
  | .requestError m => m

/-- Control outcome of one iteration of the retry-loop body (the try block
of src/app.py lines 160 to 181): a return from the function carrying the
value and any banner shown, or the continue taken on a retriable 503. -/
inductive BodyOut where
  | ret : Json → List UserMsg → BodyOut
  | retried503 : BodyOut

/-- Translation of the try block of the retry loop (src/app.py lines 160
to 181) at a given attempt index: a 429 response returns None immediately
behind a rate-limit banner; a 503 response before the last attempt takes
the continue branch; raise_for_status raises HTTPError on any remaining
4xx or 5xx status; otherwise the body is parsed, the candidates envelope
is checked (returning None when the key is absent or its value falsy) and
the first candidate text is fence-stripped and passed to extract_json.
Every exception escapes to the except handler of lines 183 to 189. -/
def attemptBody (attempt : Nat) (out : HttpOutcome) : Except PyErr BodyOut :=
  match out with
  | .raised e => .error (.requestError e)
  | .resp status body =>
    if status = 429 then .ok (.ret Json.null [.rateLimit])
    else if status = 503 ∧ attempt < max_retries - 1 then .ok .retried503
    else if 400 ≤ status ∧ status < 600 then .error (.httpError status)
    else do
      let result ← json_loads body
      let c ← pyContains result "candidates"
      if c then do
        let cand ← pySub result (Json.str "candidates")
        if truthy cand then do
          let v1 ← pySub result (Json.str "candidates")
          let v2 ← pySub v1 (Json.num 0)
          let v3 ← pySub v2 (Json.str "content")
          let v4 ← pySub v3 (Json.str "parts")
          let v5 ← pySub v4 (Json.num 0)
          let v6 ← pySub v5 (Json.str "text")
          match v6 with
          | .str raw => do
            let d ← extract_json (cleanedOf raw)
            .ok (.ret d [])
          | _ => .error (.attributeError "object has no attribute replace")
        else .ok (.ret Json.null [])
      else .ok (.ret Json.null [])

/-- Translation of the retry loop of get_recommendations (src/app.py lines
159 to 191). The environment maps each attempt index to the outcome of its
requests.post call; the first numeric argument is the remaining iteration
count of the range loop. The except handler sleeps the scheduled delay and
retries before the last attempt, and otherwise shows the communication
banner carrying the exception detail and returns None; the 503 continue
branch sleeps the same schedule. Falling out of the loop returns None
(line 191). -/
def goLoop (env : Nat → HttpOutcome) : Nat → Nat → List Nat → List UserMsg → ClientResult
  | 0, attempt, sleeps, msgs => ⟨Json.null, attempt, sleeps, msgs⟩
  | fuel + 1, attempt, sleeps, msgs =>
    match attemptBody attempt (env attempt) with
    | .ok (.ret v ms) => ⟨v, attempt + 1, sleeps, msgs ++ ms⟩
    | .ok .retried503 =>
      goLoop env fuel (attempt + 1) (sleeps ++ [retry_delays.getD attempt 0]) msgs
    | .error e =>
      if attempt < max_retries - 1 then
        goLoop env fuel (attempt + 1) (sleeps ++ [retry_delays.getD attempt 0]) msgs
      else ⟨Json.null, attempt + 1, sleeps,
        msgs ++ [.commError ("❌ Communication error: " ++ pyErrText e)]⟩

/-- Translation of get_recommendations (src/app.py lines 104 to 191),
abstracted over the transport: the prompt construction and URL do not
affect the observable retry behavior, and the network is an explicit
environment mapping attempt indices to transport outcomes. -/
def get_recommendations (env : Nat → HttpOutcome) : ClientResult :=
  goLoop env max_retries 0 [] []

/-- User-visible outcome of the result-handling block. -/
inductive Outcome where
  | noResponse : Outcome
  | noConnections : Outcome
  | rendered : NetState → Outcome
  | renderFailed : Outcome

/-- Whether the outcome involved invoking visualize_network. -/
def rendererInvoked : Outcome → Bool
  | .rendered _ => true
  | .renderFailed => true
  | _ => false

/-- Translation of the result-handling block (src/app.py lines 375 to
386): a falsy value reports the no-response banner; otherwise the
attribute access data.get raises AttributeError when the value is not a
dict; falsy edges report the no-connections banner; otherwise
visualize_network runs, a None result reports the visualization-failure
banner and a truthy artifact is embedded with the success banner. -/
def handleData (data : Json) : Except PyErr Outcome :=
  if truthy data then
    match data with
    | .obj kvs =>
      if !truthy ((objGet kvs "edges").getD Json.null) then .ok .noConnections
      else do
        let r ← visualize_network (Json.obj kvs)
        match r with
        | some net => .ok (.rendered net)
        | none => .ok .renderFailed
    | _ => .error (.attributeError "object has no attribute get")
  else .ok .noResponse

/-- One unrolling of the retry loop, shared by the client theorems. -/
theorem goLoop_step (env : Nat → HttpOutcome) (fuel attempt : Nat) (sleeps : List Nat)
    (msgs : List UserMsg) :
    goLoop env (fuel + 1) attempt sleeps msgs =
      match attemptBody attempt (env attempt) with
      | .ok (.ret v ms) => ⟨v, attempt + 1, sleeps, msgs ++ ms⟩
      | .ok .retried503 =>
        goLoop env fuel (attempt + 1) (sleeps ++ [retry_delays.getD attempt 0]) msgs
      | .error e =>
        if attempt < max_retries - 1 then
          goLoop env fuel (attempt + 1) (sleeps ++ [retry_delays.getD attempt 0]) msgs
        else ⟨Json.null, attempt + 1, sleeps,
          msgs ++ [.commError ("❌ Communication error: " ++ pyErrText e)]⟩ := rfl

/-- C1: the Response Extractor, applied after code-fence stripping,
satisfies the three spec test vectors: the fenced empty-nodes document
strips to a direct parse of the nodes object; the prose-wrapped document
fails the direct parse and is recovered through the greedy fallback match
running from the first opening brace to the last closing brace; and plain
prose yields the explicit no-JSON result None rather than an exception. -/
theorem c1_extractor_test_vectors :
    (extract_json (cleanedOf "```json\n\x7b\"nodes\":[]\x7d\n```")
      = .ok (Json.obj [("nodes", Json.arr [])]))
    ∧ (cleanedOf "Here is the graph: \x7b\"nodes\":[],\"edges\":[]\x7d Hope this helps!"
        = "Here is the graph: \x7b\"nodes\":[],\"edges\":[]\x7d Hope this helps!")
    ∧ (parseJson "Here is the graph: \x7b\"nodes\":[],\"edges\":[]\x7d Hope this helps!"
        = .error "Expecting value")
    ∧ (findJsonMatch "Here is the graph: \x7b\"nodes\":[],\"edges\":[]\x7d Hope this helps!".data
        = some "\x7b\"nodes\":[],\"edges\":[]\x7d".data)
    ∧ (extract_json (cleanedOf "Here is the graph: \x7b\"nodes\":[],\"edges\":[]\x7d Hope this helps!")
        = .ok (Json.obj [("nodes", Json.arr []), ("edges", Json.arr [])]))
    ∧ (extract_json (cleanedOf "not json at all") = .ok Json.null) :=
  ⟨by rfl, by rfl, by rfl, by rfl, by rfl, by rfl⟩

/-- C2: when the first HTTP response has status 429, get_recommendations
performs exactly one request attempt, executes no backoff sleep, shows the
rate-limit banner and returns None immediately. -/
theorem c2_rate_limit_single_attempt (env : Nat → HttpOutcome) (body : String)
    (h : env 0 = HttpOutcome.resp 429 body) :
    get_recommendations env = ⟨Json.null, 1, [], [UserMsg.rateLimit]⟩ := by
  have key : attemptBody 0 (env 0) = .ok (.ret Json.null [UserMsg.rateLimit]) := by
    rw [h]; rfl
  show goLoop env (2 + 1) 0 [] [] = _
  rw [goLoop_step, key]
  rfl

/-- Witness instantiating C2 at an environment answering 429 on every
attempt. -/
theorem c2_rate_limit_single_attempt_witness :
    (fun _ : Nat => HttpOutcome.resp 429 "") 0 = HttpOutcome.resp 429 ""
    ∧ get_recommendations (fun _ => HttpOutcome.resp 429 "")
      = ⟨Json.null, 1, [], [UserMsg.rateLimit]⟩ :=
  ⟨rfl, c2_rate_limit_single_attempt (fun _ => HttpOutcome.resp 429 "") "" rfl⟩

/-- C3: when every attempt yields a 503 response, get_recommendations
performs exactly 3 attempts with the increasing backoff sleeps 2 and 5
drawn from the schedule [2, 5, 10] between them, then returns None behind
a single communication banner carrying the underlying HTTPError detail for
status 503. -/
theorem c3_503_retry_budget (env : Nat → HttpOutcome) (b0 b1 b2 : String)
    (h0 : env 0 = HttpOutcome.resp 503 b0) (h1 : env 1 = HttpOutcome.resp 503 b1)
    (h2 : env 2 = HttpOutcome.resp 503 b2) :
    retry_delays = [2, 5, 10]
    ∧ pyErrText (.httpError 503) = "503 Server Error"
    ∧ get_recommendations env =
        ⟨Json.null, 3, [2, 5],
          [UserMsg.commError ("❌ Communication error: " ++ pyErrText (.httpError 503))]⟩ := by
  refine ⟨rfl, rfl, ?_⟩
  have k0 : attemptBody 0 (env 0) = .ok .retried503 := by rw [h0]; rfl
  have k1 : attemptBody 1 (env 1) = .ok .retried503 := by rw [h1]; rfl
  have k2 : attemptBody 2 (env 2) = .error (.httpError 503) := by rw [h2]; rfl
  show goLoop env (2 + 1) 0 [] [] = _
  rw [goLoop_step, k0]
  show goLoop env (1 + 1) 1 [2] [] = _
  rw [goLoop_step, k1]
  show goLoop env (0 + 1) 2 [2, 5] [] = _
  rw [goLoop_step, k2]
  rfl

/-- Witness instantiating C3 at an environment answering 503 on every
attempt. -/
theorem c3_503_retry_budget_witness :
    (fun _ : Nat => HttpOutcome.resp 503 "") 0 = HttpOutcome.resp 503 ""
    ∧ get_recommendations (fun _ => HttpOutcome.resp 503 "")
      = ⟨Json.null, 3, [2, 5],
          [UserMsg.commError ("❌ Communication error: " ++ pyErrText (.httpError 503))]⟩ :=
  ⟨rfl, (c3_503_retry_budget (fun _ => HttpOutcome.resp 503 "") "" "" "" rfl rfl rfl).2.2⟩

/-- Normalized node produced for a raw entry holding only the id A, the
expected value of several spec test vectors. -/
def nodeOnlyIdA : VisNode :=
  ⟨Json.str "A", Json.str "A",
    "🔵 Recommended Book\n\n📚 A\n✍️ Unknown Author\n\n💡 Why this book:\nNo recommendation reason provided.\n\n📖 Summary:\nNo summary available.",
    "#4ECDC4", 35⟩

/-- Lookup after inserting a different key is unchanged. -/
theorem objGet_objInsert_ne (kvs : List (String × Json)) (k k2 : String) (v : Json)
    (h : k2 ≠ k) : objGet (objInsert kvs k v) k2 = objGet kvs k2 := by
  induction kvs with
  | nil => simp [objInsert, objGet, Ne.symm h]
  | cons p rest ih =>
    obtain ⟨pk, pv⟩ := p
    by_cases hp : pk = k
    · subst hp
      have hne : pk ≠ k2 := fun hc => h (hc.symm)
      simp [objInsert, objGet, hne]
    · simp [objInsert, objGet, hp]
      by_cases hq : pk = k2
      · simp [hq]
      · simp [hq, ih]

/-- C4: node normalization fallbacks and defaults: the identifier comes
from the id field, falling back to the title value when the id is missing
or falsy; the display label comes from the title, falling back to the
string form of the id value; a group value other than Seed and Level2 (in
particular a missing one, which defaults to Recommended) yields the
Recommended tier attributes; missing author, reason and summary fields
render in the tooltip as their documented sentinel strings; and the
singleton spec vector yields exactly one fully defaulted Recommended
node. -/
theorem c4_node_defaults :
    (∀ kvs : List (String × Json),
      (truthy ((objGet kvs "id").getD Json.null) = true →
        (mkVisNode kvs).id = (objGet kvs "id").getD Json.null)
      ∧ (truthy ((objGet kvs "id").getD Json.null) = false →
         truthy ((objGet kvs "title").getD Json.null) = true →
        (mkVisNode kvs).id = (objGet kvs "title").getD Json.null)
      ∧ (truthy ((objGet kvs "title").getD Json.null) = true →
        (mkVisNode kvs).label = (objGet kvs "title").getD Json.null)
      ∧ (truthy ((objGet kvs "title").getD Json.null) = false →
        (mkVisNode kvs).label = Json.str (pyStr ((objGet kvs "id").getD Json.null)))
      ∧ (pyEq ((objGet kvs "group").getD (Json.str "Recommended")) (Json.str "Seed") = false →
         pyEq ((objGet kvs "group").getD (Json.str "Recommended")) (Json.str "Level2") = false →
        (mkVisNode kvs).color = "#4ECDC4" ∧ (mkVisNode kvs).size = 35))
    ∧ (∀ node : List (String × Json),
        objGet node "author" = none → objGet node "reason" = none →
        objGet node "summary" = none → objGet node "group" = none →
        create_tooltip_text node =
          "🔵 Recommended Book" ++ "\n\n📚 " ++
            pyStr (pyOr ((objGet node "title").getD Json.null)
              (pyOr ((objGet node "id").getD Json.null) (Json.str "Untitled"))) ++
            "\n✍️ " ++ "Unknown Author" ++ "\n\n💡 Why this book:\n" ++
            "No recommendation reason provided." ++ "\n\n📖 Summary:\n" ++
            "No summary available.")
    ∧ visualize_network (Json.obj [("nodes", Json.arr [Json.obj [("id", Json.str "A")]]),
        ("edges", Json.arr [])]) = .ok (some ⟨[nodeOnlyIdA], []⟩) := by
  refine ⟨?_, ?_, by rfl⟩
  · intro kvs
    have hgrp : ∀ v : Json, objGet (objInsert kvs "id" v) "group" = objGet kvs "group" :=
      fun v => objGet_objInsert_ne kvs "id" "group" v (by decide)
    refine ⟨?_, ?_, ?_, ?_, ?_⟩
    · intro h; simp [mkVisNode, h]
    · intro h ht; simp [mkVisNode, h, pyOr, ht]
    · intro ht; simp [mkVisNode, pyOr, ht]
    · intro ht; simp [mkVisNode, pyOr, ht]
    · intro hseed hlevel
      constructor <;>
        simp [mkVisNode, apply_ite (fun l : List (String × Json) => objGet l "group"),
          hgrp, hseed, hlevel]
  · intro node ha hr hs hg
    simp [create_tooltip_text, ha, hr, hs, hg, pyEq, pyStr, pyRepr]

/-- Witness applying C4 at concrete nodes: a node with an id and an
unrecognized group keeps its id and receives the Recommended tier color,
and a node holding only a title renders the three sentinel defaults in its
tooltip. -/
theorem c4_node_defaults_witness :
    (mkVisNode [("id", Json.str "X"), ("group", Json.str "Nope")]).id = Json.str "X"
    ∧ (mkVisNode [("id", Json.str "X"), ("group", Json.str "Nope")]).color = "#4ECDC4"
    ∧ create_tooltip_text [("title", Json.str "T")] =
        "🔵 Recommended Book\n\n📚 T\n✍️ Unknown Author\n\n💡 Why this book:\nNo recommendation reason provided.\n\n📖 Summary:\nNo summary available." := by
  refine ⟨?_, ?_, ?_⟩
  · exact (c4_node_defaults.1 [("id", Json.str "X"), ("group", Json.str "Nope")]).1 (by rfl)
  · exact ((c4_node_defaults.1 [("id", Json.str "X"), ("group", Json.str "Nope")]).2.2.2.2
      (by rfl) (by rfl)).1
  · exact c4_node_defaults.2.1 [("title", Json.str "T")] rfl rfl rfl rfl

/-- C5 counterexample: an edge entry whose source and target fields are
both present and non-empty is nevertheless not added to any rendered
graph: when the target matches no node id, the render aborts with an
AssertionError instead of producing a graph holding the edge. -/
theorem c5_counterexample :
    (objGet [("source", Json.str "N1"), ("target", Json.str "N2")] "source"
      = some (Json.str "N1"))
    ∧ (objGet [("source", Json.str "N1"), ("target", Json.str "N2")] "target"
      = some (Json.str "N2"))
    ∧ truthy (Json.str "N1") = true ∧ truthy (Json.str "N2") = true
    ∧ visualize_network (Json.obj [("nodes", Json.arr [Json.obj [("id", Json.str "N1")]]),
        ("edges", Json.arr [Json.obj [("source", Json.str "N1"), ("target", Json.str "N2")]])])
      = .error (.assertionError ("non existent node " ++ String.singleton '\'' ++ "N2"
          ++ String.singleton '\'')) :=
  ⟨by rfl, by rfl, by rfl, by rfl, by rfl⟩

/-- C5 amended: an edge entry missing its source or target (or holding a
falsy one) is silently dropped, leaving the network unchanged with no
error, so the missing-target spec vector yields zero edges; an entry with
both present and non-empty is appended with a missing label defaulting to
Related, provided both endpoints match registered node ids and no edge
with the same endpoints in either orientation is already present. -/
theorem c5_edge_guard (st : NetState) (kvs : List (String × Json)) :
    (truthy ((objGet kvs "source").getD Json.null) = false
       ∨ truthy ((objGet kvs "target").getD Json.null) = false →
      addEdgeStep st (Json.obj kvs) = .ok st)
    ∧ (truthy ((objGet kvs "source").getD Json.null) = true →
       truthy ((objGet kvs "target").getD Json.null) = true →
       st.nodes.any (fun m => pyEq m.id ((objGet kvs "source").getD Json.null)) = true →
       st.nodes.any (fun m => pyEq m.id ((objGet kvs "target").getD Json.null)) = true →
       st.edges.any (fun e =>
           (pyEq ((objGet kvs "source").getD Json.null) e.target &&
            pyEq ((objGet kvs "target").getD Json.null) e.source) ||
           (pyEq ((objGet kvs "source").getD Json.null) e.source &&
            pyEq ((objGet kvs "target").getD Json.null) e.target)) = false →
      addEdgeStep st (Json.obj kvs) = .ok { st with edges := st.edges ++
        [⟨(objGet kvs "source").getD Json.null, (objGet kvs "target").getD Json.null,
          (objGet kvs "label").getD (Json.str "Related"),
          (objGet kvs "label").getD (Json.str "Related")⟩] })
    ∧ visualize_network (Json.obj [("nodes", Json.arr [Json.obj [("id", Json.str "A")]]),
        ("edges", Json.arr [Json.obj [("source", Json.str "A")]])])
      = .ok (some ⟨[nodeOnlyIdA], []⟩) := by
  refine ⟨?_, ?_, by rfl⟩
  · intro h
    rcases h with h | h <;> simp [addEdgeStep, h]
  · intro hs ht hms hmt hdup
    simp [addEdgeStep, hs, ht, hms, hmt, hdup]

/-- Witness applying C5 amended at a concrete network and entries: the
missing-target entry is dropped and a well-formed entry between two
registered nodes is appended with the default label. -/
theorem c5_edge_guard_witness :
    addEdgeStep ⟨[nodeOnlyIdA], []⟩ (Json.obj [("source", Json.str "A")])
      = .ok ⟨[nodeOnlyIdA], []⟩
    ∧ addEdgeStep ⟨[nodeOnlyIdA, ⟨Json.str "B", Json.str "B", "", "#4ECDC4", 35⟩], []⟩
        (Json.obj [("source", Json.str "A"), ("target", Json.str "B")])
      = .ok ⟨[nodeOnlyIdA, ⟨Json.str "B", Json.str "B", "", "#4ECDC4", 35⟩],
          [⟨Json.str "A", Json.str "B", Json.str "Related", Json.str "Related"⟩]⟩ := by
  constructor
  · exact (c5_edge_guard ⟨[nodeOnlyIdA], []⟩ [("source", Json.str "A")]).1 (Or.inr (by rfl))
  · exact (c5_edge_guard ⟨[nodeOnlyIdA, ⟨Json.str "B", Json.str "B", "", "#4ECDC4", 35⟩], []⟩
      [("source", Json.str "A"), ("target", Json.str "B")]).2.1
      (by rfl) (by rfl) (by rfl) (by rfl) (by rfl)

/-- C6: a bare list is normalized exactly like a mapping holding it as the
nodes collection with an empty edges collection, and the bare singleton
spec vector produces one node and no edges. -/
theorem c6_bare_sequence (xs : List Json) :
    visualize_network (Json.arr xs)
      = visualize_network (Json.obj [("nodes", Json.arr xs), ("edges", Json.arr [])])
    ∧ visualize_network (Json.arr [Json.obj [("id", Json.str "A")]])
      = .ok (some ⟨[nodeOnlyIdA], []⟩) :=
  ⟨rfl, by rfl⟩

/-- Witness applying C6 at the empty bare list. -/
theorem c6_bare_sequence_witness :
    visualize_network (Json.arr [])
      = visualize_network (Json.obj [("nodes", Json.arr []), ("edges", Json.arr [])]) :=
  (c6_bare_sequence []).1

/-- C7: a truthy mapping holding a nodes key whose edges entry is absent
or falsy is reported as the no-connections content failure without
invoking the renderer, and the renderer is invoked only on mappings whose
edges entry is truthy. -/
theorem c7_zero_edges_no_render (kvs : List (String × Json))
    (hn : (objGet kvs "nodes").isSome = true)
    (he : truthy ((objGet kvs "edges").getD Json.null) = false) :
    handleData (Json.obj kvs) = .ok Outcome.noConnections
    ∧ ∀ d r, handleData d = .ok r → rendererInvoked r = true →
        ∃ kvs2, d = Json.obj kvs2 ∧ truthy ((objGet kvs2 "edges").getD Json.null) = true := by
  constructor
  · have hne : kvs ≠ [] := by
      intro hc; rw [hc] at hn; simp [objGet] at hn
    have ht : truthy (Json.obj kvs) = true := by
      simp [truthy, hne]
    simp [handleData, ht, he]
  · intro d r hd hr
    cases d with
    | obj kvs2 =>
      refine ⟨kvs2, rfl, ?_⟩
      by_cases he2 : truthy ((objGet kvs2 "edges").getD Json.null) = true
      · exact he2
      · exfalso
        by_cases ht : truthy (Json.obj kvs2) = true
        · rw [Bool.not_eq_true] at he2
          simp [handleData, ht, he2] at hd
          rw [← hd] at hr
          simp [rendererInvoked] at hr
        · rw [Bool.not_eq_true] at ht
          simp [handleData, ht] at hd
          rw [← hd] at hr
          simp [rendererInvoked] at hr
    | null =>
      exfalso; simp [handleData, truthy] at hd
      rw [← hd] at hr; simp [rendererInvoked] at hr
    | bool b =>
      exfalso
      cases b with
      | false =>
        simp [handleData, truthy] at hd
        rw [← hd] at hr; simp [rendererInvoked] at hr
      | true => simp [handleData, truthy] at hd
    | num n =>
      exfalso
      by_cases hz : truthy (Json.num n) = true
      · simp [handleData, hz] at hd
      · rw [Bool.not_eq_true] at hz
        simp [handleData, hz] at hd
        rw [← hd] at hr; simp [rendererInvoked] at hr
    | str s =>
      exfalso
      by_cases hz : truthy (Json.str s) = true
      · simp [handleData, hz] at hd
      · rw [Bool.not_eq_true] at hz
        simp [handleData, hz] at hd
        rw [← hd] at hr; simp [rendererInvoked] at hr
    | arr xs =>
      exfalso
      by_cases hz : truthy (Json.arr xs) = true
      · simp [handleData, hz] at hd
      · rw [Bool.not_eq_true] at hz
        simp [handleData, hz] at hd
        rw [← hd] at hr; simp [rendererInvoked] at hr

/-- Witness applying C7 at the mapping holding empty nodes and no edges
key. -/
theorem c7_zero_edges_no_render_witness :
    (objGet [("nodes", Json.arr [])] "nodes").isSome = true
    ∧ truthy ((objGet [("nodes", Json.arr [])] "edges").getD Json.null) = false
    ∧ handleData (Json.obj [("nodes", Json.arr [])]) = .ok Outcome.noConnections :=
  ⟨by rfl, by rfl, (c7_zero_edges_no_render [("nodes", Json.arr [])] (by rfl) (by rfl)).1⟩

/-- C8 counterexample: a graph holding a dangling edge (source and target
non-empty, target matching no node id) is not silently rendered into a
complete artifact: the renderer raises an AssertionError. -/
theorem c8_counterexample :
    visualize_network (Json.obj [("nodes", Json.arr [Json.obj [("id", Json.str "A")]]),
        ("edges", Json.arr [Json.obj [("source", Json.str "A"), ("target", Json.str "Z"),
          ("label", Json.str "Related theme")]])])
      = .error (.assertionError ("non existent node " ++ String.singleton '\'' ++ "Z"
          ++ String.singleton '\'')) := by rfl

/-- C8 amended: the renderer does not permit dangling edges: for an edge
entry with truthy source and target, an endpoint matching no registered
node id makes the edge addition raise an AssertionError naming that
endpoint; the exception propagates, since the edge loop precedes the try
block, so no artifact is produced. -/
theorem c8_dangling_assert (st : NetState) (kvs : List (String × Json))
    (hs : truthy ((objGet kvs "source").getD Json.null) = true)
    (ht : truthy ((objGet kvs "target").getD Json.null) = true) :
    (st.nodes.any (fun m => pyEq m.id ((objGet kvs "source").getD Json.null)) = false →
      addEdgeStep st (Json.obj kvs) = .error (.assertionError ("non existent node "
        ++ String.singleton '\'' ++ pyStr ((objGet kvs "source").getD Json.null)
        ++ String.singleton '\'')))
    ∧ (st.nodes.any (fun m => pyEq m.id ((objGet kvs "source").getD Json.null)) = true →
       st.nodes.any (fun m => pyEq m.id ((objGet kvs "target").getD Json.null)) = false →
      addEdgeStep st (Json.obj kvs) = .error (.assertionError ("non existent node "
        ++ String.singleton '\'' ++ pyStr ((objGet kvs "target").getD Json.null)
        ++ String.singleton '\''))) := by
  constructor
  · intro hm
    simp [addEdgeStep, hs, ht, hm]
  · intro hm1 hm2
    simp [addEdgeStep, hs, ht, hm1, hm2]

/-- Witness applying C8 amended on an empty network: an edge from A to Z
raises the assertion naming A. -/
theorem c8_dangling_assert_witness :
    truthy ((objGet [("source", Json.str "A"), ("target", Json.str "Z")] "source").getD
      Json.null) = true
    ∧ truthy ((objGet [("source", Json.str "A"), ("target", Json.str "Z")] "target").getD
      Json.null) = true
    ∧ addEdgeStep ⟨[], []⟩ (Json.obj [("source", Json.str "A"), ("target", Json.str "Z")])
      = .error (.assertionError ("non existent node " ++ String.singleton '\'' ++ "A"
          ++ String.singleton '\'')) :=
  ⟨by rfl, by rfl,
    (c8_dangling_assert ⟨[], []⟩ [("source", Json.str "A"), ("target", Json.str "Z")]
      (by rfl) (by rfl)).1 (by rfl)⟩

/-- C9 (code bug): a successfully extracted bare non-empty JSON array
reaches the result-handling block, whose attribute access data.get raises
an uncaught AttributeError, even though visualize_network itself holds a
compatibility branch that renders the very same value. -/
theorem c9_bare_array_unhandled :
    extract_json "[\x7b\"id\":\"A\"\x7d]" = .ok (Json.arr [Json.obj [("id", Json.str "A")]])
    ∧ handleData (Json.arr [Json.obj [("id", Json.str "A")]])
      = .error (.attributeError "object has no attribute get")
    ∧ visualize_network (Json.arr [Json.obj [("id", Json.str "A")]])
      = .ok (some ⟨[nodeOnlyIdA], []⟩) :=
  ⟨by rfl, by rfl, by rfl⟩

/-- C10: extract_json returns None (Json.null) both when the recovered
JSON value is the literal null and when no JSON is recoverable, making the
two indistinguishable at the interface, and the caller shows the
no-response banner on that value; moreover extract_json raises no
exception on any string input, every parse failure being a JSONDecodeError
absorbed by a handler. -/
theorem c10_null_vs_failure :
    json_loads "null" = .ok Json.null
    ∧ extract_json "null" = .ok Json.null
    ∧ extract_json "no recoverable json here" = .ok Json.null
    ∧ handleData Json.null = .ok Outcome.noResponse
    ∧ ∀ s : String, ∃ v, extract_json s = .ok v := by
  refine ⟨by rfl, by rfl, by rfl, by rfl, ?_⟩
  intro s
  unfold extract_json
  cases hq : parseJson s with
  | ok v => exact ⟨v, by simp [json_loads, hq]⟩
  | error m =>
    simp only [json_loads, hq]
    cases findJsonMatch s.data with
    | none => exact ⟨Json.null, rfl⟩
    | some sub =>
      cases h2 : parseJson (String.mk sub) with
      | ok v => exact ⟨v, by simp [json_loads, h2]⟩
      | error e => exact ⟨Json.null, by simp [json_loads, h2]⟩

/-- Witness applying the universal conjunct of C10 at the empty object
document. -/
theorem c10_null_vs_failure_witness :
    ∃ v, extract_json "\x7b\x7d" = .ok v :=
  c10_null_vs_failure.2.2.2.2 "\x7b\x7d"

end NextChapter
